import Mathlib

set_option maxHeartbeats 1000000

/-!
Shallow embedding of the café mock-data generator
(`cafe_generator.py` and `cafe_generator_ch1.py`).

Conventions:
* Python floats are modelled as `ℚ`, yen amounts as `ℤ`.
* Random draws are passed in explicitly: a categorical draw
  `np.random.choice(xs, p=ws)` is modelled by `pickIndex` applied to a
  uniform sample `u : ℚ`, the 20% coin by comparing a sample against
  `1/5`, and the Poisson draw by an arbitrary sampler function
  `P : ℚ → ℕ → ℕ` taking the requested mean and a seed.
* Dates are day indices `ℕ` carried together with their `month` and
  `weekday` components, which is all the source code consults.
-/

/-- Dictionary lookup with a default, modelling Python's `dict.get(k, d)`
(and the `if k in d: ... d[k]` idiom). -/
def lookupD {α β : Type} [BEq α] (l : List (α × β)) (k : α) (d : β) : β :=
  (l.lookup k).getD d

/-- Inverse-CDF categorical selection: given raw weights `ws` (already
normalised by the caller when the source normalises) and a uniform sample
`u`, return the index of the chosen element, modelling
`np.random.choice(range(len(ws)), p=ws)`. -/
def pickIndex : List ℚ → ℚ → ℕ
  | [], _ => 0
  | w :: ws, u => if u < w then 0 else pickIndex ws (u - w) + 1

/-- `charsStartWith s pat` is true when `pat` is an initial segment of `s`. -/
def charsStartWith : List Char → List Char → Bool
  | _, [] => true
  | [], _ :: _ => false
  | a :: as, b :: bs => a == b && charsStartWith as bs

/-- `charsHaveSub s pat` is true when `pat` occurs contiguously inside `s`. -/
def charsHaveSub : List Char → List Char → Bool
  | [], pat => pat.isEmpty
  | a :: as, pat => charsStartWith (a :: as) pat || charsHaveSub as pat

/-- Substring test on strings, modelling pandas `Series.str.contains`
(with a plain, non-regex needle). -/
def strHasSub (s pat : String) : Bool :=
  charsHaveSub s.data pat.data

/-- `json.dumps` of a list of ints, as stored in the `available_hours`
column by `generate_menu_items` in `cafe_generator.py`. -/
def jsonNatList : List ℕ → String
  | [] => "[]"
  | h :: t => "[" ++ toString h ++ String.join (t.map (fun n => ", " ++ toString n)) ++ "]"

/-- Python `int()` applied to a rational: truncation toward zero. -/
def pyTrunc (q : ℚ) : ℤ :=
  if q < 0 then ⌈q⌉ else ⌊q⌋

/-- A menu item as prepared by `generate_menu_items` (`cafe_generator.py`)
and `_prepare_menu_items` (`cafe_generator_ch1.py`).  `category` is the
resolved category name used by the ch1 variant; `available_hours` is kept
as the configured list, and the JSON string stored by the rich variant is
recovered with `jsonNatList`. -/
structure MenuItem where
  menu_id : ℕ
  category_id : ℕ
  name : String
  category : String
  price : ℤ
  cost : ℤ
  available_hours : List ℕ
  popularity_weight : ℚ
  is_seasonal : Bool
  seasonal_preference : Option String
  seasonal_multiplier : ℚ
deriving Inhabited, DecidableEq

/-- `_get_seasonal_multiplier` from `cafe_generator.py`: hardcoded
constants keyed on the item's preferred season and the current month. -/
def getSeasonalMultiplier (month : ℕ) (pref : Option String) : ℚ :=
  if pref = some "summer" ∧ month ∈ [6, 7, 8] then 3/2
  else if pref = some "winter" ∧ month ∈ [12, 1, 2] then 13/10
  else if pref = some "spring" ∧ month ∈ [3, 4, 5] then 6/5
  else if pref = some "autumn" ∧ month ∈ [9, 10, 11] then 6/5
  else 1

/-- The per-item selection weight computed in `_select_menu_items`
(`cafe_generator.py`): base popularity, adjusted by
`_get_seasonal_multiplier` only when the item is seasonal. -/
def cafeItemWeight (item : MenuItem) (month : ℕ) : ℚ :=
  if item.is_seasonal then
    item.popularity_weight * getSeasonalMultiplier month item.seasonal_preference
  else item.popularity_weight

/-- The weight list built over the available menu in `_select_menu_items`. -/
def selectWeights (avail : List MenuItem) (month : ℕ) : List ℚ :=
  avail.map (fun item => cafeItemWeight item month)

/-- The random samples consumed by one call of `_select_menu_items`:
the first categorical draw, the 20% repeat-purchase coin, and the second
categorical draw (consumed only when the coin succeeds). -/
structure SelectRand where
  u1 : ℚ
  coin : ℚ
  u2 : ℚ
deriving Inhabited, DecidableEq

/-- The normalisation `weights = np.array(weights) / sum(weights)`
performed inside `_select_menu_items` before drawing. -/
def selectNormalized (avail : List MenuItem) (month : ℕ) : List ℚ :=
  (selectWeights avail month).map (fun w => w / (selectWeights avail month).sum)

/-- One draw `np.random.choice(available_menu.index, p=weights)` followed
by the `menu_id` lookup, as performed in `_select_menu_items`. -/
def selectDraw (avail : List MenuItem) (month : ℕ) (u : ℚ) : ℕ :=
  (avail.getD (pickIndex (selectNormalized avail month) u) default).menu_id

/-- `_select_menu_items` from `cafe_generator.py`.  Returns the
`selected_items` dict as an association list of (menu_id, quantity).
One weighted draw is always made when the candidate list is nonempty and
its weight sum is positive; with probability 1/5 a second draw is made,
which increments the quantity when it repeats the first item. -/
def selectMenuItems (avail : List MenuItem) (month : ℕ) (r : SelectRand) : List (ℕ × ℕ) :=
  if 0 < avail.length then
    if 0 < (selectWeights avail month).sum then
      if r.coin < 1/5 then
        if selectDraw avail month r.u2 = selectDraw avail month r.u1 then
          [(selectDraw avail month r.u1, 2)]
        else [(selectDraw avail month r.u1, 1), (selectDraw avail month r.u2, 1)]
      else [(selectDraw avail month r.u1, 1)]
    else []
  else []

/-- The availability filter in `generate_orders_and_items`
(`cafe_generator.py` line 275):
`menu_df[menu_df['available_hours'].str.contains(str(hour))]` —
a SUBSTRING match of the decimal hour against the JSON-serialised
hours list, not set membership. -/
def availableMenuFilter (menu : List MenuItem) (hour : ℕ) : List MenuItem :=
  menu.filter (fun item => strHasSub (jsonNatList item.available_hours) (toString hour))

/-- `menu_df[menu_df['menu_id'] == item_id].iloc[0]`, made fallible. -/
def menuLookup (menu : List MenuItem) (mid : ℕ) : Option MenuItem :=
  (menu.filter (fun m => m.menu_id == mid)).head?

/-- One row of the `order_items` table. -/
structure OrderItemRec where
  order_id : ℕ
  menu_id : ℕ
  quantity : ℕ
  unit_price : ℤ
  subtotal : ℤ
deriving Inhabited, DecidableEq

/-- One row of the `orders` table.  `date` and `hour` are the components
of `order_datetime` (the random minute offset below 60 never changes
either). -/
structure OrderRec where
  order_id : ℕ
  customer_id : ℕ
  date : ℕ
  hour : ℕ
  weather_condition : String
  temperature : ℚ
  is_weekend : Bool
  total_amount : ℤ
deriving Inhabited, DecidableEq

/-- The order-detail loop of `generate_orders_and_items`: for each
selected (menu_id, quantity) look up the item, compute
`subtotal = price * quantity`, append the row and accumulate the total.
`none` models the IndexError Python would raise on a dangling id. -/
def buildOrderItems (menu : List MenuItem) (oid : ℕ) :
    List (ℕ × ℕ) → Option (List OrderItemRec × ℤ)
  | [] => some ([], 0)
  | (mid, qty) :: rest =>
    match menuLookup menu mid with
    | none => none
    | some item =>
      match buildOrderItems menu oid rest with
      | none => none
      | some (its, total) =>
        let sub : ℤ := item.price * (qty : ℤ)
        some (⟨oid, mid, qty, item.price, sub⟩ :: its, sub + total)

/-- One customer visit inside `generate_orders_and_items`
(`cafe_generator.py` lines 259–298): filter the menu for the hour, select
items, build the order-item rows and the order row.  The order row is
appended unconditionally, even when no item was selected. -/
def visitRecord (menu : List MenuItem) (month date wd hour : ℕ)
    (weather : String) (temp : ℚ) (oid cid : ℕ) (r : SelectRand) :
    Option (OrderRec × List OrderItemRec) :=
  match buildOrderItems menu oid (selectMenuItems (availableMenuFilter menu hour) month r) with
  | none => none
  | some (its, total) =>
    some (⟨oid, cid, date, hour, weather, temp, decide (5 ≤ wd), total⟩, its)

/-- The per-hour visit loop: each entry of the plan is one arriving
customer (order id, sampled customer id, selection randomness). -/
def cafeHourOrders (menu : List MenuItem) (month date wd hour : ℕ)
    (weather : String) (temp : ℚ) :
    List (ℕ × ℕ × SelectRand) → List OrderRec × List OrderItemRec
  | [] => ([], [])
  | (oid, cid, r) :: rest =>
    let tail := cafeHourOrders menu month date wd hour weather temp rest
    match visitRecord menu month date wd hour weather temp oid cid r with
    | none => tail
    | some (o, its) => (o :: tail.1, its ++ tail.2)

/-- The per-day loop of `generate_orders_and_items`: the weather and
temperature are drawn once before the hour loop and passed unchanged to
every hour and every visit of the day. -/
def cafeDayOrders (menu : List MenuItem) (month date wd : ℕ)
    (weather : String) (temp : ℚ) :
    List (ℕ × List (ℕ × ℕ × SelectRand)) → List OrderRec × List OrderItemRec
  | [] => ([], [])
  | (hour, visits) :: rest =>
    let h := cafeHourOrders menu month date wd hour weather temp visits
    let t := cafeDayOrders menu month date wd weather temp rest
    (h.1 ++ t.1, h.2 ++ t.2)

/-- The demand multiplier tables of `cafe_generator.py`'s
`_calculate_demand_multiplier`, as sparse association lists (Python
dicts).  `special_events` is the configured event list keyed by its
date string, first match wins. -/
structure DemandConfig where
  weekday_mult : List (ℕ × ℚ)
  hour_mult : List (ℕ × ℚ)
  weather_mult : List (String × ℚ)
  seasonal_mult : List (ℕ × ℚ)
  special_events : List (String × ℚ)
deriving Inhabited, DecidableEq

/-- `_calculate_demand_multiplier` from `cafe_generator.py`: start at 1.0
and multiply in the weekday, hour, weather, month and special-event
factors, skipping (i.e. defaulting to 1.0) any key not present. -/
def calculateDemandMultiplier (cfg : DemandConfig)
    (weekday month hour : ℕ) (dateStr : String) (weather : String) : ℚ :=
  let m0 : ℚ := 1
  let m1 := match cfg.weekday_mult.lookup weekday with
    | some v => m0 * v
    | none => m0
  let m2 := match cfg.hour_mult.lookup hour with
    | some v => m1 * v
    | none => m1
  let m3 := match cfg.weather_mult.lookup weather with
    | some v => m2 * v
    | none => m2
  let m4 := match cfg.seasonal_mult.lookup month with
    | some v => m3 * v
    | none => m3
  match cfg.special_events.lookup dateStr with
  | some v => m4 * v
  | none => m4

/-- `expected_customers = int(self.base_customers_per_hour * demand_multiplier)`
(`cafe_generator.py` line 253): the Poisson mean is truncated to an
integer before the draw. -/
def expectedCustomersCafe (base mult : ℚ) : ℤ :=
  pyTrunc (base * mult)

/-- `actual_customers = max(0, np.random.poisson(expected_customers))`
(`cafe_generator.py` line 256), for an arbitrary Poisson sampler `P`
taking the requested mean and a seed. -/
def actualCustomersCafe (P : ℚ → ℕ → ℕ) (base mult : ℚ) (seed : ℕ) : ℕ :=
  max 0 (P ((expectedCustomersCafe base mult : ℤ) : ℚ) seed)

/-- The `季節` season map of `cafe_generator_ch1.py`
(`_apply_seasonal_adjustment`): first matching season of a month, `none`
when the month is outside 1–12. -/
def seasonOfMonth (month : ℕ) : Option String :=
  if month ∈ [3, 4, 5] then some "spring"
  else if month ∈ [6, 7, 8] then some "summer"
  else if month ∈ [9, 10, 11] then some "autumn"
  else if month ∈ [12, 1, 2] then some "winter"
  else none

/-- The months belonging to a named season (the same `season_map`),
empty for an unknown season name. -/
def seasonMonths (s : String) : List ℕ :=
  if s = "spring" then [3, 4, 5]
  else if s = "summer" then [6, 7, 8]
  else if s = "autumn" then [9, 10, 11]
  else if s = "winter" then [12, 1, 2]
  else []

/-- `_apply_seasonal_adjustment` from `cafe_generator_ch1.py`: the item's
popularity, multiplied by its configured `seasonal_multiplier` exactly
when the item is seasonal and the current season equals its preference. -/
def applySeasonalAdjustment (item : MenuItem) (month : ℕ) : ℚ :=
  if item.is_seasonal = false then item.popularity_weight
  else if seasonOfMonth month = item.seasonal_preference then
    item.popularity_weight * item.seasonal_multiplier
  else item.popularity_weight

/-- The per-item weight of `_select_menu_items_with_preferences`
(`cafe_generator_ch1.py` lines 301–307):
`final_weight = seasonally adjusted popularity * preferences.get(category, 1.0)`. -/
def ch1ItemWeight (prefs : List (String × ℚ)) (item : MenuItem) (month : ℕ) : ℚ :=
  applySeasonalAdjustment item month * lookupD prefs item.category 1

/-- The weight formula as worded by the specification (§4.3 step 2):
`base_popularity * seasonal_adjustment * category_preference` where the
seasonal adjustment is the item's CONFIGURED `seasonal_multiplier` when
the item is seasonal and the month lies in its preferred season, else 1.
Stated from the spec's words for comparison against the two source
implementations. -/
def specItemWeight (prefs : List (String × ℚ)) (item : MenuItem) (month : ℕ) : ℚ :=
  item.popularity_weight *
    (if item.is_seasonal = true ∧ month ∈ seasonMonths (item.seasonal_preference.getD "")
      then item.seasonal_multiplier else 1) *
    lookupD prefs item.category 1

/-- `_select_menu_items_with_preferences` (`cafe_generator_ch1.py`):
filter by genuine hour membership, return `([], [])` when empty, else
the candidates and their weights. -/
def selectMenuItemsWithPref (menu : List MenuItem) (prefs : List (String × ℚ))
    (month hour : ℕ) : List MenuItem × List ℚ :=
  let avail := menu.filter (fun item => item.available_hours.contains hour)
  if avail.isEmpty then ([], [])
  else (avail, avail.map (fun item => ch1ItemWeight prefs item month))

/-- `np.random.choice([1, 2, 3], p=[0.6, 0.3, 0.1])`
(`cafe_generator_ch1.py` line 362): the number of independent item
draws for one visit. -/
def numOrdersDraw (u : ℚ) : ℕ :=
  pickIndex [3/5, 3/10, 1/10] u + 1

/-- One weighted item draw inside the `num_orders` loop of
`generate_sales_data` (`cafe_generator_ch1.py` lines 365–370): guarded
by `if weights and sum(weights) > 0`, else the draw contributes
nothing. -/
def ch1DrawItem (avail : List MenuItem) (weights : List ℚ) (u : ℚ) : Option MenuItem :=
  if weights ≠ [] ∧ 0 < weights.sum then
    some (avail.getD (pickIndex (weights.map (fun w => w / weights.sum)) u) default)
  else none

/-- The `customer_orders` list accumulated over the draws of one visit. -/
def ch1CustomerOrders (avail : List MenuItem) (weights : List ℚ) (us : List ℚ) :
    List MenuItem :=
  us.filterMap (ch1DrawItem avail weights)

/-- The weather options and month-dependent probabilities of
`_get_weather_for_date` (`cafe_generator_ch1.py`). -/
def weatherOptions : List String := ["sunny", "cloudy", "rainy", "snowy"]

/-- The probability vector chosen by month in `_get_weather_for_date`. -/
def weatherWeights (month : ℕ) : List ℚ :=
  if month ∈ [12, 1, 2] then [1/4, 7/20, 1/5, 1/5]
  else if month ∈ [6, 7, 8] then [3/5, 1/4, 3/20, 0]
  else [2/5, 3/10, 1/5, 1/10]

/-- `_get_weather_for_date` from `cafe_generator_ch1.py`: one fresh
categorical draw per call. -/
def getWeatherForDate (month : ℕ) (u : ℚ) : String :=
  weatherOptions.getD (pickIndex (weatherWeights month) u) "sunny"

/-- One output row of `generate_sales_data` (`cafe_generator_ch1.py`
lines 383–405).  Presentation-only columns that no claim mentions
(weekday label, season label, demographics, formatted timestamp) are
omitted; all columns consulted by the claims are kept. -/
structure Ch1Row where
  order_id : ℕ
  customer_id : ℕ
  date : ℕ
  month : ℕ
  hour : ℕ
  menu_id : ℕ
  item_name : String
  category : String
  price : ℤ
  cost : ℤ
  profit : ℤ
  weather : String
deriving Inhabited, DecidableEq

/-- The row-appending loop `for item in customer_orders` of
`generate_sales_data`: one row PER DRAWN ITEM (duplicates included),
and the `天気` column calls `_get_weather_for_date` afresh for every
row, consuming `weatherU i` for the i-th row. -/
def ch1VisitRows (oid cid date month hour : ℕ) (items : List MenuItem)
    (weatherU : ℕ → ℚ) : List Ch1Row :=
  items.enum.map (fun p =>
    { order_id := oid
      customer_id := cid
      date := date
      month := month
      hour := hour
      menu_id := p.2.menu_id
      item_name := p.2.name
      category := p.2.category
      price := p.2.price
      cost := p.2.cost
      profit := p.2.price - p.2.cost
      weather := getWeatherForDate month (weatherU p.1) })

/-- One full visit of `generate_sales_data` (`cafe_generator_ch1.py`
lines 348–408): select candidates, skip the visit entirely when none,
else draw `num_orders` items and append one row per drawn item. -/
def ch1Visit (menu : List MenuItem) (prefs : List (String × ℚ))
    (month date hour : ℕ) (numU : ℚ) (drawU : ℕ → ℚ) (weatherU : ℕ → ℚ)
    (oid cid : ℕ) : List Ch1Row :=
  let aw := selectMenuItemsWithPref menu prefs month hour
  if aw.1.isEmpty then []
  else
    let n := numOrdersDraw numU
    let chosen := ch1CustomerOrders aw.1 aw.2 ((List.range n).map drawU)
    ch1VisitRows oid cid date month hour chosen weatherU

/-- The multiplier tables consulted by `_calculate_hourly_customers`
(`cafe_generator_ch1.py`).  The weekday table is keyed by the STRING of
the weekday index (`.get(str(weekday), 1.0)`). -/
structure Ch1DemandConfig where
  base_customers : ℚ
  weekday_mult : List (String × ℚ)
  hour_mult : List (ℕ × ℚ)
  weather_mult : List (String × ℚ)
  seasonal_mult : List (ℕ × ℚ)
deriving Inhabited, DecidableEq

/-- The Poisson mean computed by `_calculate_hourly_customers`
(`cafe_generator_ch1.py` lines 254–271):
`base * day * hour * weather * seasonal`, every lookup defaulting to
1.0, with no truncation. -/
def ch1HourlyLambda (cfg : Ch1DemandConfig) (weekday month hour : ℕ)
    (weather : String) : ℚ :=
  cfg.base_customers
    * lookupD cfg.weekday_mult (toString weekday) 1
    * lookupD cfg.hour_mult hour 1
    * lookupD cfg.weather_mult weather 1
    * lookupD cfg.seasonal_mult month 1

/-- `max(0, np.random.poisson(customers))` (`cafe_generator_ch1.py`
line 274), for an arbitrary Poisson sampler `P`. -/
def actualCustomersCh1 (P : ℚ → ℕ → ℕ) (cfg : Ch1DemandConfig)
    (weekday month hour : ℕ) (weather : String) (seed : ℕ) : ℕ :=
  max 0 (P (ch1HourlyLambda cfg weekday month hour weather) seed)

/-- One row of the `daily_summary` table produced by
`generate_daily_summary` (`cafe_generator.py` lines 371–404), including
its `created_at = datetime.now()` column, modelled as an explicit
timestamp argument. -/
structure DSRow where
  date : ℕ
  total_orders : ℕ
  unique_customers : ℕ
  total_sales : ℤ
  total_items_sold : ℕ
  avg_temperature : ℚ
  weather_condition : String
  is_weekend : Bool
  avg_order_value : ℚ
  avg_items_per_order : ℚ
  created_at : ℕ
deriving Inhabited, DecidableEq

/-- The data columns of a `DSRow`, without the `created_at` timestamp. -/
structure DSData where
  date : ℕ
  total_orders : ℕ
  unique_customers : ℕ
  total_sales : ℤ
  total_items_sold : ℕ
  avg_temperature : ℚ
  weather_condition : String
  is_weekend : Bool
  avg_order_value : ℚ
  avg_items_per_order : ℚ
deriving Inhabited, DecidableEq

/-- Forget the `created_at` column of a summary row. -/
def stripCreated (r : DSRow) : DSData :=
  { date := r.date
    total_orders := r.total_orders
    unique_customers := r.unique_customers
    total_sales := r.total_sales
    total_items_sold := r.total_items_sold
    avg_temperature := r.avg_temperature
    weather_condition := r.weather_condition
    is_weekend := r.is_weekend
    avg_order_value := r.avg_order_value
    avg_items_per_order := r.avg_items_per_order }

/-- The rows of `order_items` belonging to one order. -/
def orderItemsOf (items : List OrderItemRec) (oid : ℕ) : List OrderItemRec :=
  items.filter (fun it => it.order_id == oid)

/-- The `orders.merge(order_items.groupby('order_id').agg(...))` join of
`generate_daily_summary`: each order paired with the sum of its items'
subtotals and quantities; orders with no item rows are dropped by the
inner merge. -/
def joinedOrders (orders : List OrderRec) (items : List OrderItemRec) :
    List (OrderRec × ℤ × ℕ) :=
  orders.filterMap (fun o =>
    let its := orderItemsOf items o.order_id
    if its.isEmpty then none
    else some (o, (its.map (fun it => it.subtotal)).sum,
                  (its.map (fun it => it.quantity)).sum))

/-- Occurrence count of a string in a list. -/
def countOcc (l : List String) (s : String) : ℕ :=
  (l.filter (fun x => x == s)).length

/-- Fold selecting the modal value: larger count wins, ties go to the
lexicographically smaller string (pandas `Series.mode()` sorts its
result and `.iloc[0]` takes the first). -/
def modeBest (l : List String) : List String → String → String
  | [], best => best
  | c :: rest, best =>
    if countOcc l c > countOcc l best ∨ (countOcc l c = countOcc l best ∧ c < best)
    then modeBest l rest c else modeBest l rest best

/-- `lambda x: x.mode().iloc[0] if len(x.mode()) > 0 else 'unknown'`. -/
def modeStr (l : List String) : String :=
  match l with
  | [] => "unknown"
  | c :: rest => modeBest (c :: rest) rest c

/-- One group of the date-wise `groupby().agg()` of
`generate_daily_summary`, plus the derived ratio columns and the
`created_at` timestamp. -/
def summarizeDate (joined : List (OrderRec × ℤ × ℕ)) (d : ℕ) (now : ℕ) : DSRow :=
  let g := joined.filter (fun j => j.1.date == d)
  let n := g.length
  let sales := (g.map (fun j => j.2.1)).sum
  let qty := (g.map (fun j => j.2.2)).sum
  { date := d
    total_orders := n
    unique_customers := ((g.map (fun j => j.1.customer_id)).dedup).length
    total_sales := sales
    total_items_sold := qty
    avg_temperature := (g.map (fun j => j.1.temperature)).sum / (n : ℚ)
    weather_condition := modeStr (g.map (fun j => j.1.weather_condition))
    is_weekend := ((g.head?).map (fun j => j.1.is_weekend)).getD false
    avg_order_value := (sales : ℚ) / (n : ℚ)
    avg_items_per_order := (qty : ℚ) / (n : ℚ)
    created_at := now }

/-- `generate_daily_summary` from `cafe_generator.py`: join, group by
calendar date (pandas sorts the group keys), aggregate each group and
stamp every row with the invocation time `now`. -/
def generateDailySummary (orders : List OrderRec) (items : List OrderItemRec)
    (now : ℕ) : List DSRow :=
  let joined := joinedOrders orders items
  let keys := List.insertionSort (fun a b => a ≤ b) ((joined.map (fun j => j.1.date)).dedup)
  keys.map (fun d => summarizeDate joined d now)

/-- A plain non-seasonal drink available in the morning hours, used as a
concrete test fixture. -/
def coffee : MenuItem :=
  { menu_id := 1, category_id := 4, name := "コーヒー", category := "ドリンク",
    price := 400, cost := 150, available_hours := [9, 10, 11],
    popularity_weight := 1, is_seasonal := false,
    seasonal_preference := none, seasonal_multiplier := 1 }

/-- An item orderable only at hour 19 (evening).  `json.dumps([19])` is
the string `"[19]"`, which CONTAINS the substring `"9"`. -/
def eveningSet : MenuItem :=
  { menu_id := 7, category_id := 2, name := "夜定食", category := "ランチ",
    price := 900, cost := 400, available_hours := [19],
    popularity_weight := 1, is_seasonal := false,
    seasonal_preference := none, seasonal_multiplier := 1 }

/-- An item orderable only at hour 12; `"[12]"` has no occurrence of
`"9"`, so hour 9 leaves the filtered candidate set empty. -/
def lunchOnly : MenuItem :=
  { menu_id := 3, category_id := 2, name := "日替わりランチ", category := "ランチ",
    price := 800, cost := 350, available_hours := [12],
    popularity_weight := 1, is_seasonal := false,
    seasonal_preference := none, seasonal_multiplier := 1 }

/-- An available item with popularity weight 0: its weight vector sums
to 0. -/
def deadItem : MenuItem :=
  { menu_id := 5, category_id := 4, name := "廃版メニュー", category := "ドリンク",
    price := 300, cost := 100, available_hours := [9],
    popularity_weight := 0, is_seasonal := false,
    seasonal_preference := none, seasonal_multiplier := 1 }

/-- A seasonal summer item with a CONFIGURED seasonal multiplier of 2,
different from the hardcoded summer constant 1.5 of
`_get_seasonal_multiplier`. -/
def kakigori : MenuItem :=
  { menu_id := 9, category_id := 5, name := "かき氷", category := "スイーツ",
    price := 600, cost := 200, available_hours := [13, 14, 15],
    popularity_weight := 1, is_seasonal := true,
    seasonal_preference := some "summer", seasonal_multiplier := 2 }

/-- A customer preference table assigning preference 1/2 to the sweets
category. -/
def prefsEx : List (String × ℚ) := [("スイーツ", 1/2)]

/-- Fixed randomness: first draw at 0, repeat-purchase coin 1/2 (fails
the 20% check), second draw at 0. -/
def r0 : SelectRand := ⟨0, 1/2, 0⟩

/-- The order produced by one `coffee` visit at hour 9 under `r0`. -/
def ordEx : OrderRec := ⟨1, 1, 0, 9, "sunny", 20, false, 400⟩

/-- The order items produced by one `coffee` visit at hour 9 under `r0`. -/
def itsEx : List OrderItemRec := [⟨1, 1, 1, 400, 400⟩]

/-- A one-order input to the daily summary. -/
def ordA : OrderRec := ⟨1, 1, 0, 9, "sunny", 20, false, 500⟩

/-- The single order-item row belonging to `ordA`. -/
def oiA : OrderItemRec := ⟨1, 1, 1, 500, 500⟩

/-- A demand config with every multiplier table empty. -/
def cfg0 : DemandConfig := ⟨[], [], [], [], []⟩

/-- A ch1 demand config with base rate 5 and every table empty. -/
def ch1cfg0 : Ch1DemandConfig := ⟨5, [], [], [], []⟩


lemma buildOrderItems_spec (menu : List MenuItem) (oid : ℕ) :
    ∀ (sel : List (ℕ × ℕ)) (its : List OrderItemRec) (total : ℤ),
      buildOrderItems menu oid sel = some (its, total) →
      (∀ p ∈ sel, 1 ≤ p.2) →
      total = (its.map (fun it => it.subtotal)).sum ∧
      ∀ it ∈ its, it.subtotal = it.unit_price * (it.quantity : ℤ) ∧ 1 ≤ it.quantity := by
  intro sel
  induction sel with
  | nil =>
    intro its total h _
    simp only [buildOrderItems, Option.some.injEq, Prod.mk.injEq] at h
    obtain ⟨h1, h2⟩ := h
    subst h1; subst h2
    simp
  | cons hd tl ih =>
    intro its total h hq
    obtain ⟨mid, qty⟩ := hd
    simp only [buildOrderItems] at h
    cases hml : menuLookup menu mid with
    | none => rw [hml] at h; cases h
    | some item =>
      rw [hml] at h
      cases hrec : buildOrderItems menu oid tl with
      | none => rw [hrec] at h; cases h
      | some p =>
        obtain ⟨its', total'⟩ := p
        rw [hrec] at h
        simp only [Option.some.injEq, Prod.mk.injEq] at h
        obtain ⟨h1, h2⟩ := h
        have hq' : ∀ p ∈ tl, 1 ≤ p.2 := fun p hp => hq p (List.mem_cons_of_mem _ hp)
        obtain ⟨ihsum, ihmem⟩ := ih its' total' hrec hq'
        subst h1; subst h2
        constructor
        · simp [ihsum]
        · intro it hit
          rcases List.mem_cons.mp hit with h | h
          · subst h
            refine ⟨rfl, ?_⟩
            exact hq (mid, qty) (List.mem_cons_self _ _)
          · exact ihmem it h

lemma selectMenuItems_qty (avail : List MenuItem) (month : ℕ) (r : SelectRand) :
    ∀ p ∈ selectMenuItems avail month r, 1 ≤ p.2 := by
  intro p hp
  unfold selectMenuItems at hp
  split_ifs at hp <;>
    simp only [List.mem_singleton, List.mem_cons, List.not_mem_nil, or_false] at hp <;>
    first
    | (subst hp; simp)
    | (rcases hp with rfl | rfl <;> simp)

lemma selectMenuItems_qsum (avail : List MenuItem) (month : ℕ) (r : SelectRand) :
    ((selectMenuItems avail month r).map (fun p => p.2)).sum ≤ 2 := by
  unfold selectMenuItems
  split_ifs <;> norm_num

lemma selectMenuItems_nodup (avail : List MenuItem) (month : ℕ) (r : SelectRand) :
    ((selectMenuItems avail month r).map (fun p => p.1)).Nodup := by
  unfold selectMenuItems
  split_ifs <;> simp_all <;> omega

lemma visitRecord_shape (menu : List MenuItem) (month date wd hour : ℕ)
    (weather : String) (temp : ℚ) (oid cid : ℕ) (r : SelectRand)
    (o : OrderRec) (its : List OrderItemRec)
    (h : visitRecord menu month date wd hour weather temp oid cid r = some (o, its)) :
    o = ⟨oid, cid, date, hour, weather, temp, decide (5 ≤ wd), o.total_amount⟩ ∧
    buildOrderItems menu oid (selectMenuItems (availableMenuFilter menu hour) month r) =
      some (its, o.total_amount) := by
  unfold visitRecord at h
  cases hb : buildOrderItems menu oid (selectMenuItems (availableMenuFilter menu hour) month r) with
  | none => rw [hb] at h; cases h
  | some p =>
    obtain ⟨its', total'⟩ := p
    rw [hb] at h
    simp only [Option.some.injEq, Prod.mk.injEq] at h
    obtain ⟨h1, h2⟩ := h
    subst h2
    constructor
    · rw [← h1]
    · rw [← h1]

lemma visitRecord_of_filter_empty (menu : List MenuItem) (month date wd hour : ℕ)
    (weather : String) (temp : ℚ) (oid cid : ℕ) (r : SelectRand)
    (h : availableMenuFilter menu hour = []) :
    visitRecord menu month date wd hour weather temp oid cid r =
      some (⟨oid, cid, date, hour, weather, temp, decide (5 ≤ wd), 0⟩, []) := by
  unfold visitRecord
  rw [h]
  have hsel : selectMenuItems [] month r = [] := by
    unfold selectMenuItems
    simp
  rw [hsel]
  rfl

lemma ch1Visit_of_filter_empty (menu : List MenuItem) (prefs : List (String × ℚ))
    (month date hour : ℕ) (numU : ℚ) (drawU weatherU : ℕ → ℚ) (oid cid : ℕ)
    (h : menu.filter (fun item => item.available_hours.contains hour) = []) :
    ch1Visit menu prefs month date hour numU drawU weatherU oid cid = [] := by
  unfold ch1Visit selectMenuItemsWithPref
  rw [h]
  simp

lemma ch1CustomerOrders_of_nonpos (avail : List MenuItem) (ws : List ℚ)
    (h : ws.sum ≤ 0) : ∀ us, ch1CustomerOrders avail ws us = [] := by
  intro us
  induction us with
  | nil => rfl
  | cons u rest ih =>
    unfold ch1CustomerOrders at ih ⊢
    simp only [List.filterMap_cons]
    have hd : ch1DrawItem avail ws u = none := by
      unfold ch1DrawItem
      rw [if_neg]
      rintro ⟨-, hpos⟩
      exact absurd hpos (not_lt.mpr h)
    rw [hd, ih]

lemma ch1CustomerOrders_length (avail : List MenuItem) (ws : List ℚ)
    (hw : ws ≠ []) (hs : 0 < ws.sum) :
    ∀ us, (ch1CustomerOrders avail ws us).length = us.length := by
  intro us
  induction us with
  | nil => rfl
  | cons u rest ih =>
    unfold ch1CustomerOrders at ih ⊢
    simp only [List.filterMap_cons]
    have hd : ch1DrawItem avail ws u =
        some (avail.getD (pickIndex (ws.map (fun w => w / ws.sum)) u) default) := by
      unfold ch1DrawItem
      rw [if_pos ⟨hw, hs⟩]
    rw [hd]
    simp [ih]

lemma season_mem (month : ℕ) (s : String) :
    seasonOfMonth month = some s ↔ month ∈ seasonMonths s := by
  constructor
  · intro h
    unfold seasonOfMonth at h
    split_ifs at h with h1 h2 h3 h4 <;>
      simp only [Option.some.injEq] at h
    · subst h; simpa [seasonMonths] using h1
    · subst h; simpa [seasonMonths] using h2
    · subst h; simpa [seasonMonths] using h3
    · subst h; simpa [seasonMonths] using h4
  · intro h
    unfold seasonMonths at h
    split_ifs at h with hs1 hs2 hs3 hs4
    · subst hs1; fin_cases h <;> decide
    · subst hs2; fin_cases h <;> decide
    · subst hs3; fin_cases h <;> decide
    · subst hs4; fin_cases h <;> decide
    · exact absurd h (List.not_mem_nil month)

lemma seasonOfMonth_isSome (month : ℕ) (h1 : 1 ≤ month) (h2 : month ≤ 12) :
    (seasonOfMonth month).isSome := by
  interval_cases month <;> decide

lemma ch1_weight_eq_spec (prefs : List (String × ℚ)) (item : MenuItem) (month : ℕ)
    (h1 : 1 ≤ month) (h2 : month ≤ 12) :
    ch1ItemWeight prefs item month = specItemWeight prefs item month := by
  unfold ch1ItemWeight specItemWeight applySeasonalAdjustment
  cases hs : item.is_seasonal with
  | false => simp [hs]
  | true =>
    cases hp : item.seasonal_preference with
    | none =>
      have hnone : ¬ (seasonOfMonth month = none) := by
        have h3 := seasonOfMonth_isSome month h1 h2
        simpa [Option.isSome_iff_ne_none] using h3
      simp [hs, hp, hnone, seasonMonths]
    | some s =>
      by_cases hmem : month ∈ seasonMonths s
      · have hsome := (season_mem month s).mpr hmem
        simp [hs, hp, hsome, hmem]
      · have hne : ¬ seasonOfMonth month = some s :=
          fun hc => hmem ((season_mem month s).mp hc)
        simp [hs, hp, hne, hmem]

lemma lookup_none_of_not_mem {α β : Type} [BEq α] [LawfulBEq α]
    (l : List (α × β)) (k : α) (h : k ∉ l.map Prod.fst) : l.lookup k = none := by
  induction l with
  | nil => rfl
  | cons hd tl ih =>
    obtain ⟨a, b⟩ := hd
    simp only [List.map_cons, List.mem_cons, not_or] at h
    obtain ⟨hne, hmem⟩ := h
    have hbeq : (k == a) = false := beq_eq_false_iff_ne.mpr hne
    simp only [List.lookup_cons, hbeq]
    exact ih hmem

lemma lookupD_default {α β : Type} [BEq α] [LawfulBEq α]
    (l : List (α × β)) (k : α) (d : β) (h : k ∉ l.map Prod.fst) :
    lookupD l k d = d := by
  unfold lookupD
  rw [lookup_none_of_not_mem l k h]
  rfl

lemma demand_multiplier_product (cfg : DemandConfig)
    (wd mo hr : ℕ) (ds we : String) :
    calculateDemandMultiplier cfg wd mo hr ds we =
      lookupD cfg.weekday_mult wd 1 * lookupD cfg.hour_mult hr 1 *
      lookupD cfg.weather_mult we 1 * lookupD cfg.seasonal_mult mo 1 *
      lookupD cfg.special_events ds 1 := by
  unfold calculateDemandMultiplier lookupD
  cases cfg.weekday_mult.lookup wd <;>
    cases cfg.hour_mult.lookup hr <;>
    cases cfg.weather_mult.lookup we <;>
    cases cfg.seasonal_mult.lookup mo <;>
    cases cfg.special_events.lookup ds <;>
    simp

lemma numOrdersDraw_closed (u : ℚ) (hu : u < 1) :
    numOrdersDraw u = if u < 3/5 then 1 else if u < 9/10 then 2 else 3 := by
  unfold numOrdersDraw
  by_cases a1 : u < 3/5
  · simp [pickIndex, a1]
  · by_cases a2 : u < 9/10
    · have hb : u - 3/5 < 3/10 := by linarith
      simp [pickIndex, a1, a2, hb]
    · have hb1 : ¬ (u - 3/5 < 3/10) := fun hc => a2 (by linarith)
      have hb2 : u - 3/5 - 3/10 < 1/10 := by linarith
      simp only [pickIndex, if_neg a1, if_neg hb1]
      norm_num [hb2, if_neg a2]

lemma list_map_const {α β : Type} (l : List α) (f : α → β) (b : β)
    (h : ∀ a, f a = b) : l.map f = List.replicate l.length b := by
  induction l with
  | nil => rfl
  | cons hd tl ih => simp [List.replicate, h, ih]

lemma gds_created (orders : List OrderRec) (items : List OrderItemRec) (now : ℕ) :
    (generateDailySummary orders items now).map (fun r => r.created_at) =
      List.replicate (generateDailySummary orders items now).length now := by
  unfold generateDailySummary
  rw [List.map_map, List.length_map]
  exact list_map_const _ _ _ (fun d => rfl)

lemma gds_strip (orders : List OrderRec) (items : List OrderItemRec) (t1 t2 : ℕ) :
    (generateDailySummary orders items t1).map stripCreated =
      (generateDailySummary orders items t2).map stripCreated := by
  unfold generateDailySummary
  rw [List.map_map, List.map_map]
  generalize (List.insertionSort (fun a b => a ≤ b)
    ((joinedOrders orders items).map (fun j => j.1.date)).dedup) = keys
  induction keys with
  | nil => rfl
  | cons hd tl ih =>
    simp only [List.map_cons]
    rw [ih]
    rfl

lemma cafeHourOrders_weather (menu : List MenuItem) (month date wd hour : ℕ)
    (weather : String) (temp : ℚ) :
    ∀ visits, ∀ o ∈ (cafeHourOrders menu month date wd hour weather temp visits).1,
      o.weather_condition = weather ∧ o.temperature = temp ∧ o.date = date := by
  intro visits
  induction visits with
  | nil => simp [cafeHourOrders]
  | cons v rest ih =>
    obtain ⟨oid, cid, r⟩ := v
    intro o ho
    simp only [cafeHourOrders] at ho
    cases hv : visitRecord menu month date wd hour weather temp oid cid r with
    | none =>
      rw [hv] at ho
      exact ih o ho
    | some p =>
      obtain ⟨o', its'⟩ := p
      rw [hv] at ho
      simp only [List.mem_cons] at ho
      rcases ho with rfl | ho
      · obtain ⟨hshape, -⟩ := visitRecord_shape menu month date wd hour weather temp oid cid r o its' hv
        rw [hshape]
        exact ⟨rfl, rfl, rfl⟩
      · exact ih o ho

lemma cafeDayOrders_weather (menu : List MenuItem) (month date wd : ℕ)
    (weather : String) (temp : ℚ) :
    ∀ plans, ∀ o ∈ (cafeDayOrders menu month date wd weather temp plans).1,
      o.weather_condition = weather ∧ o.temperature = temp ∧ o.date = date := by
  intro plans
  induction plans with
  | nil => simp [cafeDayOrders]
  | cons p rest ih =>
    obtain ⟨hour, visits⟩ := p
    intro o ho
    simp only [cafeDayOrders, List.mem_append] at ho
    rcases ho with ho | ho
    · exact cafeHourOrders_weather menu month date wd hour weather temp visits o ho
    · exact ih o ho

lemma visitRecord_coffee :
    visitRecord [coffee] 1 0 0 9 "sunny" 20 1 1 r0 = some (ordEx, itsEx) := by
  have hf : availableMenuFilter [coffee] 9 = [coffee] := by decide
  have hsel : selectMenuItems [coffee] 1 r0 = [(1, 1)] := by
    norm_num [selectMenuItems, selectDraw, selectNormalized, selectWeights,
      cafeItemWeight, pickIndex, r0, coffee]
  have hb : buildOrderItems [coffee] 1 [(1, 1)] = some (itsEx, 400) := by decide
  unfold visitRecord
  rw [hf, hsel, hb]
  rfl

lemma visitRecord_eveningSet :
    visitRecord [eveningSet] 1 0 0 9 "sunny" 20 1 1 r0 =
      some (⟨1, 1, 0, 9, "sunny", 20, false, 900⟩, [⟨1, 7, 1, 900, 900⟩]) := by
  have hf : availableMenuFilter [eveningSet] 9 = [eveningSet] := by decide
  have hsel : selectMenuItems [eveningSet] 1 r0 = [(7, 1)] := by
    norm_num [selectMenuItems, selectDraw, selectNormalized, selectWeights,
      cafeItemWeight, pickIndex, r0, eveningSet]
  have hb : buildOrderItems [eveningSet] 1 [(7, 1)] =
      some ([⟨1, 7, 1, 900, 900⟩], 900) := by decide
  unfold visitRecord
  rw [hf, hsel, hb]
  rfl

lemma ch1Visit_coffee_dup :
    ch1Visit [coffee] [] 1 0 9 (7/10) (fun _ => 0) (fun _ => 0) 3001 2001 =
      [⟨3001, 2001, 0, 1, 9, 1, "コーヒー", "ドリンク", 400, 150, 250, "sunny"⟩,
       ⟨3001, 2001, 0, 1, 9, 1, "コーヒー", "ドリンク", 400, 150, 250, "sunny"⟩] := by
  have hn : numOrdersDraw (7/10) = 2 := by norm_num [numOrdersDraw, pickIndex]
  have hsel : selectMenuItemsWithPref [coffee] [] 1 9 = ([coffee], [1]) := by
    norm_num [selectMenuItemsWithPref, ch1ItemWeight, applySeasonalAdjustment, lookupD, coffee]
  have hdraw : ch1DrawItem [coffee] [1] 0 = some coffee := by
    norm_num [ch1DrawItem, pickIndex]
  have hw : getWeatherForDate 1 0 = "sunny" := by
    norm_num [getWeatherForDate, weatherWeights, weatherOptions, pickIndex]
  simp only [ch1Visit, hsel, hn, ch1CustomerOrders, List.range_succ, List.range_zero,
    List.map_cons, List.map_nil, List.nil_append, List.cons_append,
    List.filterMap_cons, List.filterMap_nil, hdraw, ch1VisitRows, List.enum, List.enumFrom, hw]
  norm_num [coffee]

lemma ch1Visit_coffee_weather :
    ch1Visit [coffee] [] 4 5 9 (7/10) (fun _ => 0)
        (fun i => if i = 0 then 0 else 1/2) 3001 2001 =
      [⟨3001, 2001, 5, 4, 9, 1, "コーヒー", "ドリンク", 400, 150, 250, "sunny"⟩,
       ⟨3001, 2001, 5, 4, 9, 1, "コーヒー", "ドリンク", 400, 150, 250, "cloudy"⟩] := by
  have hn : numOrdersDraw (7/10) = 2 := by norm_num [numOrdersDraw, pickIndex]
  have hsel : selectMenuItemsWithPref [coffee] [] 4 9 = ([coffee], [1]) := by
    norm_num [selectMenuItemsWithPref, ch1ItemWeight, applySeasonalAdjustment, lookupD, coffee]
  have hdraw : ch1DrawItem [coffee] [1] 0 = some coffee := by
    norm_num [ch1DrawItem, pickIndex]
  have hw0 : getWeatherForDate 4 0 = "sunny" := by
    norm_num [getWeatherForDate, weatherWeights, weatherOptions, pickIndex]
  have hw1 : getWeatherForDate 4 (1/2) = "cloudy" := by
    norm_num [getWeatherForDate, weatherWeights, weatherOptions, pickIndex]
  simp only [ch1Visit, hsel, hn, ch1CustomerOrders, List.range_succ, List.range_zero,
    List.map_cons, List.map_nil, List.nil_append, List.cons_append,
    List.filterMap_cons, List.filterMap_nil, hdraw, ch1VisitRows, List.enum, List.enumFrom]
  norm_num [hw0, hw1, coffee]

/-- Claim C1: for every generated Order, `total_amount` equals the sum of
the subtotals of its OrderItems, and for every generated OrderItem,
`subtotal = unit_price * quantity` with `quantity ≥ 1`. -/
theorem C1_order_total_invariant (menu : List MenuItem) (month date wd hour : ℕ)
    (weather : String) (temp : ℚ) (oid cid : ℕ) (r : SelectRand)
    (o : OrderRec) (its : List OrderItemRec)
    (h : visitRecord menu month date wd hour weather temp oid cid r = some (o, its)) :
    o.total_amount = (its.map (fun it => it.subtotal)).sum ∧
    ∀ it ∈ its, it.subtotal = it.unit_price * (it.quantity : ℤ) ∧ 1 ≤ it.quantity := by
  obtain ⟨-, hb⟩ := visitRecord_shape menu month date wd hour weather temp oid cid r o its h
  exact buildOrderItems_spec menu oid _ its o.total_amount hb
    (selectMenuItems_qty _ month r)

/-- Witness for C1 at a concrete one-item visit. -/
theorem C1_order_total_invariant_witness :
    ordEx.total_amount = (itsEx.map (fun it => it.subtotal)).sum ∧
    ∀ it ∈ itsEx, it.subtotal = it.unit_price * (it.quantity : ℤ) ∧ 1 ≤ it.quantity :=
  C1_order_total_invariant [coffee] 1 0 0 9 "sunny" 20 1 1 r0 ordEx itsEx visitRecord_coffee

/-- Claim C2 (code bug): the availability filter of
`generate_orders_and_items` matches `str(hour)` as a SUBSTRING of the
JSON-serialised hours list, so at hour 9 an item available only at hour
19 passes the filter and is sold, violating the claimed invariant that
the referenced item's available-hours set contains the order's hour. -/
theorem C2_hour_filter_bug :
    availableMenuFilter [eveningSet] 9 = [eveningSet] ∧
    eveningSet.available_hours.contains 9 = false ∧
    (visitRecord [eveningSet] 1 0 0 9 "sunny" 20 1 1 r0).map
        (fun p => p.2.map (fun it => it.menu_id)) = some [7] := by
  refine ⟨by decide, by decide, ?_⟩
  rw [visitRecord_eveningSet]
  rfl

/-- Counterexample to claim C3: at an hour contained in no item's
available-hours set (and matching no substring), `cafe_generator.py`
still records an Order (with total 0 and no items) for the visit. -/
theorem C3_counterexample :
    ([lunchOnly].all (fun m => !(m.available_hours.contains 9))) = true ∧
    visitRecord [lunchOnly] 1 0 0 9 "sunny" 20 1 1 r0 =
      some (⟨1, 1, 0, 9, "sunny", 20, false, 0⟩, []) := by
  refine ⟨by decide, ?_⟩
  have hf : availableMenuFilter [lunchOnly] 9 = [] := by decide
  exact visitRecord_of_filter_empty [lunchOnly] 1 0 0 9 "sunny" 20 1 1 r0 hf

/-- Claim C3 (amended): when the filtered candidate set of a visit is
empty, no OrderItems are recorded; `cafe_generator_ch1.py` skips the
visit entirely (no sales rows), while `cafe_generator.py` still appends
an Order with `total_amount = 0` and no items. -/
theorem C3_empty_filter_amended (menu menu2 : List MenuItem) (prefs : List (String × ℚ))
    (month date wd hour month2 date2 hour2 : ℕ) (weather : String) (temp : ℚ)
    (oid cid oid2 cid2 : ℕ) (r : SelectRand) (numU : ℚ) (drawU weatherU : ℕ → ℚ)
    (h : availableMenuFilter menu hour = [])
    (h2 : menu2.filter (fun item => item.available_hours.contains hour2) = []) :
    visitRecord menu month date wd hour weather temp oid cid r =
      some (⟨oid, cid, date, hour, weather, temp, decide (5 ≤ wd), 0⟩, []) ∧
    ch1Visit menu2 prefs month2 date2 hour2 numU drawU weatherU oid2 cid2 = [] :=
  ⟨visitRecord_of_filter_empty menu month date wd hour weather temp oid cid r h,
   ch1Visit_of_filter_empty menu2 prefs month2 date2 hour2 numU drawU weatherU oid2 cid2 h2⟩

/-- Witness for the amended C3 at hour 9 against a lunch-only menu. -/
theorem C3_empty_filter_amended_witness :
    visitRecord [lunchOnly] 1 0 0 9 "sunny" 20 1 1 r0 =
      some (⟨1, 1, 0, 9, "sunny", 20, false, 0⟩, []) ∧
    ch1Visit [lunchOnly] [] 1 0 9 (7/10) (fun _ => 0) (fun _ => 0) 1 1 = [] :=
  C3_empty_filter_amended [lunchOnly] [lunchOnly] [] 1 0 0 9 1 0 9 "sunny" 20
    1 1 1 1 r0 (7/10) (fun _ => 0) (fun _ => 0) (by decide) (by decide)

/-- Counterexample to claim C4: for the seasonal summer item `kakigori`
(configured `seasonal_multiplier` 2) in July with sweets-preference 1/2,
`cafe_generator.py` computes weight `1 * 1.5` (hardcoded summer constant,
no category preference), while the claimed formula gives `1 * 2 * 1/2`. -/
theorem C4_counterexample :
    cafeItemWeight kakigori 7 = 3/2 ∧
    specItemWeight prefsEx kakigori 7 = 1 ∧
    ch1ItemWeight prefsEx kakigori 7 = 1 ∧
    cafeItemWeight kakigori 7 ≠ specItemWeight prefsEx kakigori 7 := by
  have hsm : seasonMonths "summer" = [6, 7, 8] := by decide
  norm_num [cafeItemWeight, specItemWeight, ch1ItemWeight, applySeasonalAdjustment,
    getSeasonalMultiplier, seasonOfMonth, hsm, lookupD, List.lookup,
    kakigori, prefsEx]

/-- Claim C4 (amended): `cafe_generator_ch1.py` computes exactly the
claimed weight `base_popularity * seasonal_adjustment * category_preference`
with the configured multiplier; `cafe_generator.py` ignores the configured
`seasonal_multiplier` (its weight is invariant under changing it) and
applies no category preference (its weight function takes none). -/
theorem C4_weight_formula_amended (prefs : List (String × ℚ)) (item : MenuItem)
    (month : ℕ) (q : ℚ) (h1 : 1 ≤ month) (h2 : month ≤ 12) :
    ch1ItemWeight prefs item month = specItemWeight prefs item month ∧
    cafeItemWeight { item with seasonal_multiplier := q } month = cafeItemWeight item month :=
  ⟨ch1_weight_eq_spec prefs item month h1 h2, rfl⟩

/-- Witness for the amended C4 at July with the summer item. -/
theorem C4_weight_formula_amended_witness :
    (ch1ItemWeight prefsEx kakigori 7 = specItemWeight prefsEx kakigori 7) ∧
    cafeItemWeight { kakigori with seasonal_multiplier := 5 } 7 = cafeItemWeight kakigori 7 :=
  C4_weight_formula_amended prefsEx kakigori 7 5 (by norm_num) (by norm_num)

/-- Counterexample to claim C5: in `cafe_generator_ch1.py`, a visit whose
two draws both pick the same item emits two separate rows with the same
order id and item id instead of one line with quantity 2. -/
theorem C5_counterexample :
    (ch1Visit [coffee] [] 1 0 9 (7/10) (fun _ => 0) (fun _ => 0) 3001 2001).map
      (fun row => (row.order_id, row.menu_id)) = [(3001, 1), (3001, 1)] := by
  rw [ch1Visit_coffee_dup]
  rfl

/-- Claim C5 (amended): `cafe_generator.py` performs one draw plus at
most one extra draw (total quantity at most 2, never 3) and merges a
repeated draw into a single line (distinct ids); `cafe_generator_ch1.py`
draws n from {1,2,3} at cutoffs 0.6/0.9, performs exactly one successful
draw per iteration when the weight sum is positive, and appends one row
per drawn item (duplicates kept). -/
theorem C5_draw_count_amended (avail : List MenuItem) (month : ℕ) (r : SelectRand)
    (u : ℚ) (hu : u < 1) (avail2 : List MenuItem) (ws : List ℚ) (us : List ℚ)
    (hw : ws ≠ []) (hs : 0 < ws.sum)
    (oid cid date month2 hour : ℕ) (weatherU : ℕ → ℚ) (its : List MenuItem) :
    ((selectMenuItems avail month r).map (fun p => p.2)).sum ≤ 2 ∧
    ((selectMenuItems avail month r).map (fun p => p.1)).Nodup ∧
    numOrdersDraw u = (if u < 3/5 then 1 else if u < 9/10 then 2 else 3) ∧
    (ch1CustomerOrders avail2 ws us).length = us.length ∧
    (ch1VisitRows oid cid date month2 hour its weatherU).length = its.length :=
  ⟨selectMenuItems_qsum avail month r, selectMenuItems_nodup avail month r,
   numOrdersDraw_closed u hu, ch1CustomerOrders_length avail2 ws hw hs us, by
     simp [ch1VisitRows]⟩

/-- Witness for the amended C5 at concrete draws. -/
theorem C5_draw_count_amended_witness :
    ((selectMenuItems [coffee] 1 r0).map (fun p => p.2)).sum ≤ 2 ∧
    ((selectMenuItems [coffee] 1 r0).map (fun p => p.1)).Nodup ∧
    numOrdersDraw (7/10) =
      (if (7:ℚ)/10 < 3/5 then 1 else if (7:ℚ)/10 < 9/10 then 2 else 3) ∧
    (ch1CustomerOrders [coffee] [1] [0, 0]).length = ([0, 0] : List ℚ).length ∧
    (ch1VisitRows 1 1 0 1 9 [coffee, coffee] (fun _ => 0)).length =
      [coffee, coffee].length :=
  C5_draw_count_amended [coffee] 1 r0 (7/10) (by norm_num) [coffee] [1] [0, 0]
    (by simp) (by norm_num) 1 1 0 1 9 (fun _ => 0) [coffee, coffee]

/-- Claim C6: a candidate weight vector summing to zero or a negative
value makes the selection step yield an empty result in both variants,
with no division performed. -/
theorem C6_zero_weight_selection (avail : List MenuItem) (month : ℕ) (r : SelectRand)
    (avail2 : List MenuItem) (ws us : List ℚ)
    (h : (selectWeights avail month).sum ≤ 0) (h2 : ws.sum ≤ 0) :
    selectMenuItems avail month r = [] ∧ ch1CustomerOrders avail2 ws us = [] := by
  constructor
  · have hns : ¬ 0 < (selectWeights avail month).sum := not_lt.mpr h
    simp [selectMenuItems, hns]
  · exact ch1CustomerOrders_of_nonpos avail2 ws h2 us

/-- Witness for C6 with a zero-popularity candidate. -/
theorem C6_zero_weight_selection_witness :
    selectMenuItems [deadItem] 1 r0 = [] ∧
    ch1CustomerOrders [deadItem] [0] [0] = [] :=
  C6_zero_weight_selection [deadItem] 1 r0 [deadItem] [0] [0]
    (by norm_num [selectWeights, cafeItemWeight, deadItem]) (by norm_num)

/-- Claim C7: absent weekday/hour/weather/month keys (and an absent
category in a preference table) each resolve to the neutral factor 1.0,
and the demand multiplier is exactly the product of the five defaulted
lookups, so sparse configurations are handled without error. -/
theorem C7_lookup_defaults (cfg : DemandConfig) (c1 : Ch1DemandConfig)
    (wd mo hr : ℕ) (we ds : String) (prefs : List (String × ℚ)) (cat : String) :
    (calculateDemandMultiplier cfg wd mo hr ds we =
      lookupD cfg.weekday_mult wd 1 * lookupD cfg.hour_mult hr 1 *
      lookupD cfg.weather_mult we 1 * lookupD cfg.seasonal_mult mo 1 *
      lookupD cfg.special_events ds 1) ∧
    (ch1HourlyLambda c1 wd mo hr we =
      c1.base_customers * lookupD c1.weekday_mult (toString wd) 1 *
      lookupD c1.hour_mult hr 1 * lookupD c1.weather_mult we 1 *
      lookupD c1.seasonal_mult mo 1) ∧
    (wd ∉ cfg.weekday_mult.map Prod.fst → lookupD cfg.weekday_mult wd 1 = 1) ∧
    (hr ∉ cfg.hour_mult.map Prod.fst → lookupD cfg.hour_mult hr 1 = 1) ∧
    (we ∉ cfg.weather_mult.map Prod.fst → lookupD cfg.weather_mult we 1 = 1) ∧
    (mo ∉ cfg.seasonal_mult.map Prod.fst → lookupD cfg.seasonal_mult mo 1 = 1) ∧
    (cat ∉ prefs.map Prod.fst → lookupD prefs cat 1 = 1) :=
  ⟨demand_multiplier_product cfg wd mo hr ds we, rfl,
   lookupD_default _ _ _, lookupD_default _ _ _, lookupD_default _ _ _,
   lookupD_default _ _ _, lookupD_default _ _ _⟩

/-- Witness for C7 on a fully empty config. -/
theorem C7_lookup_defaults_witness :
    (calculateDemandMultiplier cfg0 0 1 9 "2024-01-01" "sunny" =
      lookupD cfg0.weekday_mult 0 1 * lookupD cfg0.hour_mult 9 1 *
      lookupD cfg0.weather_mult "sunny" 1 * lookupD cfg0.seasonal_mult 1 1 *
      lookupD cfg0.special_events "2024-01-01" 1) ∧
    lookupD cfg0.weekday_mult 0 1 = 1 ∧ lookupD cfg0.hour_mult 9 1 = 1 ∧
    lookupD cfg0.weather_mult "sunny" 1 = 1 ∧ lookupD cfg0.seasonal_mult 1 1 = 1 ∧
    lookupD ([] : List (String × ℚ)) "ドリンク" 1 = 1 := by
  have h := C7_lookup_defaults cfg0 ch1cfg0 0 1 9 "sunny" "2024-01-01" [] "ドリンク"
  exact ⟨h.1, h.2.2.1 (by decide), h.2.2.2.1 (by decide),
    h.2.2.2.2.1 (by decide), h.2.2.2.2.2.1 (by decide), h.2.2.2.2.2.2 (by decide)⟩

/-- Counterexample to claim C8: `cafe_generator.py` truncates the Poisson
mean with `int()` before the draw: for base 5 and composite multiplier
1/2 the sampler is called with mean 2, not 5/2, so a mean-sensitive
sampler observes the truncation. -/
theorem C8_counterexample :
    ((expectedCustomersCafe 5 (1/2) : ℤ) : ℚ) ≠ 5 * (1/2 : ℚ) ∧
    expectedCustomersCafe 5 (1/2) = 2 ∧
    actualCustomersCafe (fun lam _ => if lam = 5 * (1/2 : ℚ) then 7 else 0) 5 (1/2) 0 = 0 := by
  have he : expectedCustomersCafe 5 (1/2) = 2 := by
    norm_num [expectedCustomersCafe, pyTrunc]
  refine ⟨?_, he, ?_⟩
  · rw [he]; norm_num
  · unfold actualCustomersCafe
    rw [he]
    norm_num

/-- Claim C8 (amended): both variants clamp with `max 0` and call the
Poisson sampler once; `cafe_generator_ch1.py` passes the untruncated mean
`base * composite`, `cafe_generator.py` passes `int(base * composite)`;
in both, a zero product yields a realized count of exactly 0 for every
sampler that is Poisson-faithful at mean 0. -/
theorem C8_poisson_mean_amended (P : ℚ → ℕ → ℕ) (hP : ∀ s, P 0 s = 0)
    (base mult : ℚ) (seed : ℕ) (c1 : Ch1DemandConfig) (wd mo hr : ℕ) (we : String) :
    actualCustomersCafe P base mult seed = P ((pyTrunc (base * mult) : ℤ) : ℚ) seed ∧
    (base * mult = 0 → actualCustomersCafe P base mult seed = 0) ∧
    actualCustomersCh1 P c1 wd mo hr we seed = P (ch1HourlyLambda c1 wd mo hr we) seed ∧
    (ch1HourlyLambda c1 wd mo hr we = 0 → actualCustomersCh1 P c1 wd mo hr we seed = 0) := by
  have hmax : ∀ n : ℕ, max 0 n = n := fun n => Nat.zero_max n
  refine ⟨?_, ?_, ?_, ?_⟩
  · unfold actualCustomersCafe expectedCustomersCafe
    rw [hmax]
  · intro h0
    unfold actualCustomersCafe expectedCustomersCafe
    rw [h0]
    have hz : pyTrunc 0 = 0 := by norm_num [pyTrunc]
    rw [hz, hmax]
    simpa using hP seed
  · unfold actualCustomersCh1
    rw [hmax]
  · intro h0
    unfold actualCustomersCh1
    rw [h0, hmax]
    exact hP seed

/-- Witness for the amended C8 with the constant-zero sampler. -/
theorem C8_poisson_mean_amended_witness :
    actualCustomersCafe (fun _ _ => 0) 5 0 3 = 0 ∧
    actualCustomersCh1 (fun _ _ => 0) ch1cfg0 0 1 9 "sunny" 3 =
      (fun _ _ => 0) (ch1HourlyLambda ch1cfg0 0 1 9 "sunny") 3 := by
  have h := C8_poisson_mean_amended (fun _ _ => 0) (fun _ => rfl) 5 0 3 ch1cfg0 0 1 9 "sunny"
  exact ⟨h.2.1 (by norm_num), h.2.2.1⟩

/-- Counterexample to claim C9: two invocations of the aggregation over
the same unchanged orders and order items, at generation timestamps 0 and
1, produce rows differing in the `created_at` column. -/
theorem C9_counterexample :
    generateDailySummary [ordA] [oiA] 0 ≠ generateDailySummary [ordA] [oiA] 1 := by
  intro h
  have e0 : (generateDailySummary [ordA] [oiA] 0).head?.map (fun r => r.created_at) =
      some 0 := rfl
  have e1 : (generateDailySummary [ordA] [oiA] 1).head?.map (fun r => r.created_at) =
      some 1 := rfl
  have h2 : (some 0 : Option ℕ) = some 1 := by rw [← e0, ← e1, h]
  simp at h2

/-- Claim C9 (amended): the aggregation is deterministic in its data
input — every column except `created_at` is identical across
re-aggregations of the same orders and items, and `created_at` is
exactly the invocation timestamp on every row. -/
theorem C9_deterministic_amended (orders : List OrderRec) (items : List OrderItemRec)
    (t1 t2 : ℕ) :
    (generateDailySummary orders items t1).map stripCreated =
      (generateDailySummary orders items t2).map stripCreated ∧
    (generateDailySummary orders items t1).map (fun r => r.created_at) =
      List.replicate (generateDailySummary orders items t1).length t1 :=
  ⟨gds_strip orders items t1 t2, gds_created orders items t1⟩

/-- Counterexample to claim C10: in `cafe_generator_ch1.py` each sales
row draws its weather independently, so two rows of the same visit (same
calendar date 5) carry different weather values. -/
theorem C10_counterexample :
    (ch1Visit [coffee] [] 4 5 9 (7/10) (fun _ => 0)
        (fun i => if i = 0 then 0 else 1/2) 3001 2001).map
      (fun row => (row.date, row.weather)) = [(5, "sunny"), (5, "cloudy")] := by
  rw [ch1Visit_coffee_weather]
  rfl

/-- Claim C10 (amended): in `cafe_generator.py` the weather and
temperature are drawn once per day before the hour loop, and every Order
generated that day carries exactly that weather, that temperature and
that date. -/
theorem C10_weather_per_day_amended (menu : List MenuItem) (month date wd : ℕ)
    (weather : String) (temp : ℚ) (plans : List (ℕ × List (ℕ × ℕ × SelectRand)))
    (o : OrderRec) (ho : o ∈ (cafeDayOrders menu month date wd weather temp plans).1) :
    o.weather_condition = weather ∧ o.temperature = temp ∧ o.date = date :=
  cafeDayOrders_weather menu month date wd weather temp plans o ho

/-- Witness for the amended C10 on a one-visit day. -/
theorem C10_weather_per_day_amended_witness :
    ordEx.weather_condition = "sunny" ∧ ordEx.temperature = 20 ∧ ordEx.date = 0 := by
  have hd : (cafeDayOrders [coffee] 1 0 0 "sunny" 20 [(9, [(1, 1, r0)])]).1 = [ordEx] := by
    simp only [cafeDayOrders, cafeHourOrders, visitRecord_coffee, List.append_nil]
  exact C10_weather_per_day_amended [coffee] 1 0 0 "sunny" 20 [(9, [(1, 1, r0)])] ordEx
    (by rw [hd]; exact List.mem_singleton.mpr rfl)
